import Mathlib

/-!
Verification development for the vipsgen code generator.

The definitions below are a shallow embedding of the repository's Go code:
the `generator` package (`TemplateData`, `NewTemplateData`, `Generate`) and
the command entry point `cmd/vipsgen/main.go`.  File-system effects (created
files, log lines) are made explicit as data; fallible calls are modelled with
`Except`.  Go standard-library string and path functions used by the code
(`strings.HasSuffix`, `strings.TrimSuffix`, `filepath.Base`, `filepath.Join`
with its `Clean` normalisation) are embedded faithfully from their documented
Unix semantics.
-/

namespace Vipsgen

/-- Position-by-position initial-segment test over char lists; helper for
`strContains` (models Go byte-wise string comparison). -/
def hasPre : List Char → List Char → Bool
  | [], _ => true
  | _ :: _, [] => false
  | p :: ps, c :: cs => p == c && hasPre ps cs

/-- Substring occurrence test over char lists, models `strings.Contains`:
the pattern occurs when it is an initial segment at some position. -/
def containsL (s pat : List Char) : Bool :=
  match s with
  | [] => hasPre pat []
  | c :: cs => if hasPre pat (c :: cs) then true else containsL cs pat

/-- Models `strings.Contains s pat`. -/
def strContains (s pat : String) : Bool :=
  containsL s.data pat.data

/-- Models `strings.HasSuffix s sfx`: `len(s) >= len(sfx)` and the final
`len(sfx)` bytes of `s` equal `sfx`. -/
def strEndsWith (s sfx : String) : Bool :=
  decide (sfx.data.length ≤ s.data.length ∧
    s.data.drop (s.data.length - sfx.data.length) = sfx.data)

/-- Models `strings.TrimSuffix s sfx`: drop the trailing `sfx` when present,
otherwise return `s` unchanged. -/
def goTrimSuffix (s sfx : String) : String :=
  if strEndsWith s sfx then String.mk (s.data.take (s.data.length - sfx.data.length))
  else s

/-- Core of `filepath.Base` over char lists: strip trailing separators, then
keep everything after the last separator. -/
def baseL (cs : List Char) : List Char :=
  let r := cs.reverse.dropWhile (fun c => c = '/')
  (r.takeWhile (fun c => c ≠ '/')).reverse

/-- Models `path/filepath.Base` (Unix): empty path gives ".", an all-separator
path gives "/", otherwise the last path element with trailing separators
removed. -/
def goBase (path : String) : String :=
  if path.data = [] then "."
  else
    let name := baseL path.data
    if name = [] then "/" else String.mk name

/-- Backtracking step of `filepath.Clean`: after removing the final buffered
character `last`, keep removing characters until a separator has been removed
or the protected prefix length `dd` is reached.  The buffer `out` is kept in
reversed order. -/
def cleanBacktrack (last : Char) (out : List Char) (dd : Nat) : List Char :=
  match out with
  | [] => []
  | c :: rest =>
    if rest.length + 1 > dd ∧ last ≠ '/' then cleanBacktrack c rest dd
    else c :: rest

/-- Removes the final path element from the reversed output buffer of
`filepath.Clean` (the `out.w > dotdot` case of its ".." handling). -/
def popElem (out : List Char) (dd : Nat) : List Char :=
  match out with
  | [] => []
  | h :: t => cleanBacktrack h t dd

/-- The ".." handling of `filepath.Clean`: backtrack over the last real
element when one is buffered beyond the protected prefix, keep the buffer for
a rooted path otherwise, and append a literal ".." (extending the protected
prefix) for a relative path.  Returns the new protected prefix length and the
new reversed buffer. -/
def ddStep (rooted : Bool) (dotdot : Nat) (out : List Char) : Nat × List Char :=
  if out.length > dotdot then (dotdot, popElem out dotdot)
  else if rooted then (dotdot, out)
  else
    let out' := if out.length > 0 then '.' :: '.' :: '/' :: out else ['.', '.']
    (out'.length, out')

/-- Main loop of `path/filepath.Clean` (Unix separator) over the remaining
characters `cs`, with a reversed output buffer `out` and the ".."-protected
prefix length `dotdot`.  `inElem` distinguishes Go's inner element-copying
loop (which copies characters up to the next separator) from the outer loop
(which at each element boundary skips separators and "." elements, resolves
".." via `ddStep`, and otherwise starts copying a new element preceded by a
separator when one is needed). -/
def cleanRun (rooted : Bool) (inElem : Bool) (cs : List Char) (dotdot : Nat)
    (out : List Char) : List Char :=
  match inElem, cs with
  | _, [] => out
  | true, c :: rest =>
    if c = '/' then cleanRun rooted false rest dotdot out
    else cleanRun rooted true rest dotdot (c :: out)
  | false, '/' :: rest => cleanRun rooted false rest dotdot out
  | false, ['.'] => out
  | false, '.' :: '/' :: rest => cleanRun rooted false rest dotdot out
  | false, ['.', '.'] => (ddStep rooted dotdot out).2
  | false, '.' :: '.' :: '/' :: rest =>
    let s := ddStep rooted dotdot out
    cleanRun rooted false rest s.1 s.2
  | false, c :: rest =>
    let out' :=
      if rooted then (if out.length ≠ 1 then '/' :: out else out)
      else (if out.length ≠ 0 then '/' :: out else out)
    cleanRun rooted true rest dotdot (c :: out')

/-- Models `path/filepath.Clean` (Unix): empty path gives ".", otherwise the
lexically simplified path computed by `cleanRun` (with a leading separator
pre-seeded for rooted paths), falling back to "." when everything cancels. -/
def goClean (path : String) : String :=
  if path.data = [] then "."
  else if path.data.head? = some '/' then
    let out := cleanRun true false path.data.tail 1 ['/']
    if out = [] then "." else String.mk out.reverse
  else
    let out := cleanRun false false path.data 0 []
    if out = [] then "." else String.mk out.reverse

/-- Models the two-argument `path/filepath.Join`: skip a leading empty
element, then `Clean` the separator-joined remainder; all-empty input gives
the empty string. -/
def goJoin2 (a b : String) : String :=
  if a ≠ "" then goClean (a ++ "/" ++ b)
  else if b ≠ "" then goClean b
  else ""

/-- Modelled from the spec: the `internal/introspection` package is not under
src/; per the spec's data model an argument has a name, a native type tag, a
direction, a required flag and an optional default value. -/
structure Argument where
  name : String
  nativeType : String
  direction : String
  required : Bool
  defaultValue : Option String
  deriving DecidableEq

/-- Modelled from the spec: `introspection.Operation`, one native callable
unit with ordered arguments, an output flag and a deprecation flag. -/
structure Operation where
  name : String
  arguments : List Argument
  hasOutput : Bool
  deprecated : Bool
  deriving DecidableEq

/-- Modelled from the spec: `introspection.EnumTypeInfo`, an enum name with
its ordered members and exact numeric values. -/
structure EnumTypeInfo where
  name : String
  members : List (String × Int)
  deriving DecidableEq

/-- Modelled from the spec: `introspection.ImageTypeInfo`, an image type name
with a nullable parent back-reference. -/
structure ImageTypeInfo where
  name : String
  parent : Option String
  deriving DecidableEq

/-- TemplateData holds all data needed by any template
(generator/templatedata.go). -/
structure TemplateData where
  VipsVersion : String
  Operations : List Operation
  EnumTypes : List EnumTypeInfo
  ImageTypes : List ImageTypeInfo
  IncludeTest : Bool
  deriving DecidableEq

/-- NewTemplateData creates a new TemplateData structure with all needed
information (generator/templatedata.go). -/
def NewTemplateData (vipsVersion : String) (operations : List Operation)
    (enumTypes : List EnumTypeInfo) (imageTypes : List ImageTypeInfo)
    (includeTest : Bool) : TemplateData :=
  ⟨vipsVersion, operations, enumTypes, imageTypes, includeTest⟩

/-- Modelled from the spec: the `TemplateLoader` interface is declared outside
src/ (only its use in `Generate` and `main` is visible).  It is an oracle for
the two calls `Generate` makes: `ListFiles` and `GenerateFile`; a successful
`GenerateFile` renders the unit and writes the returned bytes to the given
output file. -/
structure TemplateLoader where
  listFilesResult : Except String (List String)
  generateFileResult : String → String → TemplateData → Except String String

/-- Oracle for the one operating-system call `Generate` makes directly:
`os.MkdirAll` on the output directory. -/
structure FileSys where
  mkdirAllResult : String → Except String Unit

/-- Observable outcome of a `Generate` run: the files written to disk in
write order (path and bytes), the log lines emitted, the template data as it
stands when `Generate` returns (the code never mutates it, which the frame
theorem below makes explicit), and Go's return value (`error`, so `ok` holds
no payload). -/
structure GenResult where
  written : List (String × String)
  logs : List String
  finalData : TemplateData
  result : Except String Unit

/-- Skip predicate of the `Generate` loop (generate.go line 428):
`!templateData.IncludeTest && strings.HasSuffix(filepath.Base(templateFile),
"_test.go.tmpl")`. -/
def isSkipped (data : TemplateData) (templateFile : String) : Bool :=
  !data.IncludeTest && strEndsWith (goBase templateFile) "_test.go.tmpl"

/-- Output path of one template unit (generate.go line 425):
`filepath.Join(outputDir, strings.TrimSuffix(filepath.Base(templateFile),
".tmpl"))`. -/
def outputPathFor (outputDir templateFile : String) : String :=
  goJoin2 outputDir (goTrimSuffix (goBase templateFile) ".tmpl")

/-- Log line emitted when a test template is skipped (generate.go line 429). -/
def skipLogMsg (templateFile : String) : String :=
  "Skipping test template: " ++ goBase templateFile ++
    " (use --include-test to generate)\n"

/-- Log lines emitted after a fully successful loop (generate.go lines
440-443): the count line followed by one line per generated file. -/
def successLogs (generatedFiles : List String) : List String :=
  ("\nSuccessfully generated files from templates: " ++
      toString generatedFiles.length ++ "\n") ::
    generatedFiles.map (fun f => "  - " ++ f ++ "\n")

/-- The per-unit loop of `Generate` (generate.go lines 422-444), with the
accumulated writes, log lines and `generatedFiles` slice made explicit.  For
each unit: compute the output path, skip test templates unless `IncludeTest`
is set, otherwise call `GenerateFile` and on failure return at once with the
wrapping error; on normal exhaustion emit the success log lines and return
`nil`. -/
def generateLoop (loader : TemplateLoader) (outputDir : String)
    (data : TemplateData) (files : List String)
    (written : List (String × String)) (logs : List String)
    (generatedFiles : List String) : GenResult :=
  match files with
  | [] =>
    { written := written, logs := logs ++ successLogs generatedFiles,
      finalData := data, result := Except.ok () }
  | tf :: rest =>
    let outputFile := outputPathFor outputDir tf
    if isSkipped data tf then
      generateLoop loader outputDir data rest written (logs ++ [skipLogMsg tf])
        generatedFiles
    else
      match loader.generateFileResult tf outputFile data with
      | Except.error e =>
        { written := written, logs := logs, finalData := data,
          result := Except.error ("failed to generate " ++ outputFile ++ ": " ++ e) }
      | Except.ok bytes =>
        generateLoop loader outputDir data rest (written ++ [(outputFile, bytes)])
          logs (generatedFiles ++ [outputFile])

/-- Generate generates all code files from templates by scanning the template
directory (generate.go lines 403-445): ensure the output directory exists,
list the template files, then run the per-unit loop. -/
def Generate (fs : FileSys) (loader : TemplateLoader) (data : TemplateData)
    (outputDir : String) : GenResult :=
  match fs.mkdirAllResult outputDir with
  | Except.error e =>
    { written := [], logs := [], finalData := data,
      result := Except.error ("failed to create output directory: " ++ e) }
  | Except.ok _ =>
    match loader.listFilesResult with
    | Except.error e =>
      { written := [], logs := [], finalData := data,
        result := Except.error ("failed to list template files: " ++ e) }
    | Except.ok files => generateLoop loader outputDir data files [] [] []

/-- Characterisation used by the theorems below: the units of a batch that
`Generate` actually processes successfully — skipped units are passed over,
and the first unit whose `GenerateFile` call fails ends the run. -/
def processedUnits (loader : TemplateLoader) (outputDir : String)
    (data : TemplateData) : List String → List String
  | [] => []
  | tf :: rest =>
    if isSkipped data tf then processedUnits loader outputDir data rest
    else
      match loader.generateFileResult tf (outputPathFor outputDir tf) data with
      | Except.error _ => []
      | Except.ok _ => tf :: processedUnits loader outputDir data rest

/-- Final content on disk at path `p` after a sequence of writes: the last
write to `p` wins, `none` when `p` was never written. -/
def diskContent (writes : List (String × String)) (p : String) : Option String :=
  ((writes.filter (fun w => w.fst = p)).map Prod.snd).getLast?

/-- Parsed flag and argument values of `cmd/vipsgen/main.go` after
`flag.Parse()`: the five declared flags plus the positional arguments. -/
structure Flags where
  extract : Bool
  extractDir : String
  outFlagVal : String
  templatesFlagVal : String
  debug : Bool
  includeTest : Bool
  args : List String
  deriving DecidableEq

/-- Default value of the `-out` flag (main.go line 15). -/
def defaultOutFlagVal : String := "./vips"

/-- Externally visible calls `main` makes, in program order. -/
inductive MainEvent where
  | extractTemplates (dir : String)
  | newOSLoader (dir : String)
  | useEmbedded
  | newIntrospection (debug : Bool)
  | getVipsVersion
  | discoverImageTypes
  | discoverOperations
  | discoverEnumTypes
  | generateCall (outputDir : String)
  deriving DecidableEq

/-- Events that touch the native registry: creating the introspection handle
or any of its discovery queries. -/
def isIntrospectionEvent : MainEvent → Bool
  | MainEvent.newIntrospection _ => true
  | MainEvent.getVipsVersion => true
  | MainEvent.discoverImageTypes => true
  | MainEvent.discoverOperations => true
  | MainEvent.discoverEnumTypes => true
  | _ => false

/-- Modelled from the spec: results of the native-registry queries performed
through `introspection.NewIntrospection` (the `internal/introspection`
package is not under src/); `main` only forwards these values. -/
structure IntrospectionData where
  vipsVersion : String
  imageTypes : List ImageTypeInfo
  operations : List Operation
  enumTypes : List EnumTypeInfo

/-- Observable outcome of a `main` run: the external calls made in order and
the process exit status (`log.Fatalf` exits 1, falling off `main` exits 0). -/
structure MainResult where
  events : List MainEvent
  exitCode : Nat

/-- Output directory resolution of `main` (main.go lines 52-58): a non-empty
`-out` value wins, otherwise the first positional argument when present,
otherwise "./vips". -/
def resolveOutputDir (outFlagVal : String) (args : List String) : String :=
  if outFlagVal ≠ "" then outFlagVal
  else if args.length > 0 then args.headD ""
  else "./vips"

/-- Generation path of `main` after a template loader has been selected
(main.go lines 51-84): resolve the output directory, query the native
registry, build the `TemplateData` snapshot and run `Generate`, exiting 1 on
its failure and 0 otherwise. -/
def mainGenerate (flags : Flags) (fs : FileSys) (loader : TemplateLoader)
    (intro : IntrospectionData) (loaderEvent : MainEvent) : MainResult :=
  let outputDir := resolveOutputDir flags.outFlagVal flags.args
  let events := [loaderEvent, MainEvent.newIntrospection flags.debug,
    MainEvent.getVipsVersion, MainEvent.discoverImageTypes,
    MainEvent.discoverOperations, MainEvent.discoverEnumTypes,
    MainEvent.generateCall outputDir]
  let data := NewTemplateData intro.vipsVersion intro.operations
    intro.enumTypes intro.imageTypes flags.includeTest
  match (Generate fs loader data outputDir).result with
  | Except.error _ => { events := events, exitCode := 1 }
  | Except.ok _ => { events := events, exitCode := 0 }

/-- The `main` function of cmd/vipsgen/main.go: in extraction mode copy the
embedded templates and return (exit 0, or exit 1 when the copy fails);
otherwise select the template loader (external directory when `-templates`
is set, embedded otherwise) and continue with generation.
`extractResult` is the oracle for `generator.ExtractEmbeddedFS` and
`osLoader` for `generator.NewOSTemplateLoader`, both declared outside src/. -/
def mainRun (flags : Flags) (fs : FileSys)
    (extractResult : Except String Unit)
    (osLoader : String → Except String TemplateLoader)
    (embeddedLoader : TemplateLoader)
    (intro : IntrospectionData) : MainResult :=
  if flags.extract then
    match extractResult with
    | Except.error _ =>
      { events := [MainEvent.extractTemplates flags.extractDir], exitCode := 1 }
    | Except.ok _ =>
      { events := [MainEvent.extractTemplates flags.extractDir], exitCode := 0 }
  else if flags.templatesFlagVal ≠ "" then
    match osLoader flags.templatesFlagVal with
    | Except.error _ =>
      { events := [MainEvent.newOSLoader flags.templatesFlagVal], exitCode := 1 }
    | Except.ok loader =>
      mainGenerate flags fs loader intro (MainEvent.newOSLoader flags.templatesFlagVal)
  else
    mainGenerate flags fs embeddedLoader intro MainEvent.useEmbedded

/-- Concrete file-system oracle whose `MkdirAll` always succeeds. -/
def okFS : FileSys := ⟨fun _ => Except.ok ()⟩

/-- Concrete snapshot with test generation disabled. -/
def tdPlain : TemplateData := NewTemplateData "8.18.0" [] [] [] false

/-- Concrete snapshot with test generation enabled. -/
def tdTest : TemplateData := NewTemplateData "8.18.0" [] [] [] true

/-- Concrete loader with a single ordinary unit that renders successfully. -/
def oneUnitLoader : TemplateLoader :=
  ⟨Except.ok ["vips.go.tmpl"], fun _ _ _ => Except.ok "content"⟩

/-- Concrete loader with two ordinary units that both render successfully. -/
def twoOkLoader : TemplateLoader :=
  ⟨Except.ok ["a.go.tmpl", "b.go.tmpl"], fun _ _ _ => Except.ok "X"⟩

/-- Concrete loader whose first unit renders and whose second unit fails. -/
def failSecondLoader : TemplateLoader :=
  ⟨Except.ok ["a.go.tmpl", "b.go.tmpl"],
   fun tf _ _ => if tf = "a.go.tmpl" then Except.ok "A" else Except.error "boom"⟩

/-- Concrete loader with a single failing unit that lives in a subdirectory. -/
def subFailLoader : TemplateLoader :=
  ⟨Except.ok ["sub/x.tmpl"], fun _ _ _ => Except.error "boom"⟩

/-- Concrete loader with a single test-only unit that renders successfully. -/
def testUnitLoader : TemplateLoader :=
  ⟨Except.ok ["vips_test.go.tmpl"], fun _ _ _ => Except.ok "T"⟩

/-- Concrete loader with one ordinary and one test-only unit. -/
def mixedLoader : TemplateLoader :=
  ⟨Except.ok ["vips.go.tmpl", "vips_test.go.tmpl"], fun _ _ _ => Except.ok "X"⟩

/-- Concrete loader with two units in different subdirectories sharing one
base name. -/
def subdirLoader : TemplateLoader :=
  ⟨Except.ok ["sub1/vips.go.tmpl", "sub2/vips.go.tmpl"],
   fun tf _ _ => if tf = "sub1/vips.go.tmpl" then Except.ok "B1" else Except.ok "B2"⟩

/-- Concrete loader with no units at all. -/
def emptyLoader : TemplateLoader :=
  ⟨Except.ok [], fun _ _ _ => Except.error "unused"⟩

/-- Concrete flag values for an extraction-mode run. -/
def extractFlags : Flags := ⟨true, "./templates", "./vips", "", false, false, []⟩

/-- Concrete empty introspection snapshot. -/
def noIntro : IntrospectionData := ⟨"", [], [], []⟩

/-- The template-data snapshot is threaded through the generation loop
unchanged, on every exit path. -/
theorem generateLoop_finalData (loader : TemplateLoader) (outputDir : String)
    (data : TemplateData) :
    ∀ files written logs gen,
      (generateLoop loader outputDir data files written logs gen).finalData = data := by
  intro files
  induction files with
  | nil => intro w l g; rfl
  | cons tf rest ih =>
    intro w l g
    cases h : isSkipped data tf with
    | true => simp only [generateLoop, h, if_true]; exact ih _ _ _
    | false =>
      simp only [generateLoop, h, Bool.false_eq_true, if_false]
      cases hr : loader.generateFileResult tf (outputPathFor outputDir tf) data with
      | error e => rfl
      | ok b => exact ih _ _ _

/-- Paths written by the generation loop: the accumulated writes followed by
one output path per successfully processed unit, in order. -/
theorem generateLoop_written_paths (loader : TemplateLoader) (outputDir : String)
    (data : TemplateData) :
    ∀ files written logs gen,
      (generateLoop loader outputDir data files written logs gen).written.map Prod.fst
        = written.map Prod.fst
            ++ (processedUnits loader outputDir data files).map (outputPathFor outputDir) := by
  intro files
  induction files with
  | nil => intro w l g; simp [generateLoop, processedUnits]
  | cons tf rest ih =>
    intro w l g
    cases h : isSkipped data tf with
    | true => simp only [generateLoop, processedUnits, h, if_true]; exact ih _ _ _
    | false =>
      simp only [generateLoop, processedUnits, h, Bool.false_eq_true, if_false]
      cases hr : loader.generateFileResult tf (outputPathFor outputDir tf) data with
      | error e => simp
      | ok b => rw [ih]; simp

/-- When the generation loop returns `nil`, the successfully processed units
are exactly the non-skipped units of the batch, in order. -/
theorem generateLoop_ok_processed (loader : TemplateLoader) (outputDir : String)
    (data : TemplateData) :
    ∀ files written logs gen,
      (generateLoop loader outputDir data files written logs gen).result = Except.ok () →
      processedUnits loader outputDir data files
        = files.filter (fun tf => !isSkipped data tf) := by
  intro files
  induction files with
  | nil => intro w l g _; rfl
  | cons tf rest ih =>
    intro w l g hok
    cases h : isSkipped data tf with
    | true =>
      simp only [generateLoop, h, if_true] at hok
      simp only [processedUnits, h, if_true, List.filter, Bool.not_true]
      exact ih _ _ _ hok
    | false =>
      simp only [generateLoop, h, Bool.false_eq_true, if_false] at hok
      simp only [processedUnits, h, Bool.false_eq_true, if_false, List.filter,
        Bool.not_false]
      cases hr : loader.generateFileResult tf (outputPathFor outputDir tf) data with
      | error e => rw [hr] at hok; simp at hok
      | ok b =>
        rw [hr] at hok
        have hrec := ih _ _ _ hok
        simpa using hrec

/-- When the generation loop returns `nil`, its log output is the incoming
log lines, one skip notice per skipped unit in batch order, and then the
success block naming every generated output path in order. -/
theorem generateLoop_ok_logs (loader : TemplateLoader) (outputDir : String)
    (data : TemplateData) :
    ∀ files written logs gen,
      (generateLoop loader outputDir data files written logs gen).result = Except.ok () →
      (generateLoop loader outputDir data files written logs gen).logs
        = logs ++ (files.filter (fun tf => isSkipped data tf)).map skipLogMsg
            ++ successLogs (gen ++ (files.filter (fun tf => !isSkipped data tf)).map
                  (outputPathFor outputDir)) := by
  intro files
  induction files with
  | nil => intro w l g _; simp [generateLoop]
  | cons tf rest ih =>
    intro w l g hok
    cases h : isSkipped data tf with
    | true =>
      simp only [generateLoop, h, if_true] at hok ⊢
      rw [ih _ _ _ hok]
      simp [List.filter, h]
    | false =>
      simp only [generateLoop, h, Bool.false_eq_true, if_false] at hok ⊢
      cases hr : loader.generateFileResult tf (outputPathFor outputDir tf) data with
      | error e => rw [hr] at hok; simp at hok
      | ok b =>
        rw [hr] at hok
        show (generateLoop loader outputDir data rest
          (w ++ [(outputPathFor outputDir tf, b)]) l
          (g ++ [outputPathFor outputDir tf])).logs = _
        rw [ih _ _ _ hok]
        simp [List.filter, h]

/-- When a non-skipped unit `u` fails and every unit before it is either
skipped or renders successfully, the loop returns the wrapping error for `u`
and the written paths are exactly those of the units processed before `u`:
nothing after the failing unit is generated. -/
theorem generateLoop_abort (loader : TemplateLoader) (outputDir : String)
    (data : TemplateData) (u e : String) (l₂ : List String)
    (hu : isSkipped data u = false)
    (he : loader.generateFileResult u (outputPathFor outputDir u) data
      = Except.error e) :
    ∀ l₁ written logs gen,
      (∀ f ∈ l₁, isSkipped data f = true ∨
        ∃ b, loader.generateFileResult f (outputPathFor outputDir f) data
          = Except.ok b) →
      (generateLoop loader outputDir data (l₁ ++ u :: l₂) written logs gen).result
          = Except.error ("failed to generate " ++ outputPathFor outputDir u ++ ": " ++ e) ∧
        (generateLoop loader outputDir data (l₁ ++ u :: l₂) written logs gen).written.map
            Prod.fst
          = written.map Prod.fst
              ++ (processedUnits loader outputDir data l₁).map (outputPathFor outputDir) := by
  intro l₁
  induction l₁ with
  | nil =>
    intro w l g _
    simp only [List.nil_append, generateLoop, hu, Bool.false_eq_true, if_false, he,
      processedUnits]
    simp
  | cons f l₁ ih =>
    intro w l g hall
    have hf := hall f (by simp)
    have hrest : ∀ x ∈ l₁, isSkipped data x = true ∨
        ∃ b, loader.generateFileResult x (outputPathFor outputDir x) data
          = Except.ok b := by
      intro x hx; exact hall x (by simp [hx])
    cases h : isSkipped data f with
    | true =>
      simp only [List.cons_append, generateLoop, processedUnits, h, if_true]
      exact ih _ _ _ hrest
    | false =>
      rcases hf with hf | ⟨b, hb⟩
      · rw [h] at hf; exact absurd hf (by simp)
      · simp only [List.cons_append, generateLoop, processedUnits, h,
          Bool.false_eq_true, if_false, hb]
        rcases ih (w ++ [(outputPathFor outputDir f, b)]) l
          (g ++ [outputPathFor outputDir f]) hrest with ⟨h1, h2⟩
        exact ⟨h1, h2.trans (by simp)⟩

/-- A `takeWhile` over a block of satisfying elements followed by a failing
separator returns exactly the block. -/
theorem takeWhile_block (p : Char → Bool) (l r : List Char) (sep : Char)
    (hl : ∀ x ∈ l, p x = true) (hs : p sep = false) :
    (l ++ sep :: r).takeWhile p = l := by
  induction l with
  | nil => simp [List.takeWhile_cons, hs]
  | cons a t ih =>
    have ha : p a = true := hl a (by simp)
    have ht : ∀ x ∈ t, p x = true := fun x hx => hl x (by simp [hx])
    simp [List.takeWhile_cons, ha, ih ht]

/-- The base name of a path of the form `directory ++ "/" ++ name`, where
`name` is non-empty and separator-free, is `name` itself. -/
theorem goBase_dir_slash (d name : String) (h1 : name ≠ "")
    (h2 : ∀ c ∈ name.data, c ≠ '/') :
    goBase (d ++ "/" ++ name) = name := by
  have hdata : (d ++ "/" ++ name).data = d.data ++ '/' :: name.data := by
    simp [String.data_append]
  have hne : name.data ≠ [] := by
    intro hc
    apply h1
    cases name with
    | mk nl => simp at hc; simp [hc]
  unfold goBase
  rw [hdata]
  have hcsne : d.data ++ '/' :: name.data ≠ [] := by simp
  rw [if_neg hcsne]
  unfold baseL
  have hrev : (d.data ++ '/' :: name.data).reverse
      = name.data.reverse ++ '/' :: d.data.reverse := by
    simp
  rw [hrev]
  cases hnr : name.data.reverse with
  | nil => exact absurd (by simpa using hnr) hne
  | cons a t =>
    have ha : a ∈ name.data := by
      have : a ∈ name.data.reverse := by rw [hnr]; simp
      simpa using this
    have ha' : (a = '/') = False := by simp [h2 a ha]
    have hdrop : ((a :: t) ++ '/' :: d.data.reverse).dropWhile (fun c => c = '/')
        = (a :: t) ++ '/' :: d.data.reverse := by
      simp [List.dropWhile_cons, ha']
    have htall : ∀ x ∈ a :: t, (fun c => decide (c ≠ '/')) x = true := by
      intro x hx
      have hx' : x ∈ name.data := by
        have : x ∈ name.data.reverse := by rw [hnr]; exact hx
        simpa using this
      simp [h2 x hx']
    have htake : ((a :: t) ++ '/' :: d.data.reverse).takeWhile
          (fun c => decide (c ≠ '/')) = a :: t :=
      takeWhile_block _ _ _ _ htall (by simp)
    simp only [List.cons_append] at hdrop htake ⊢
    rw [hdrop, htake, ← hnr, List.reverse_reverse, if_neg hne]

/-- A `Generate` run whose directory creation and listing succeed is the
generation loop over the listed files with empty accumulators. -/
theorem Generate_eq_loop (fs : FileSys) (loader : TemplateLoader)
    (data : TemplateData) (outputDir : String) (files : List String)
    (hmk : fs.mkdirAllResult outputDir = Except.ok ())
    (hls : loader.listFilesResult = Except.ok files) :
    Generate fs loader data outputDir
      = generateLoop loader outputDir data files [] [] [] := by
  unfold Generate
  rw [hmk, hls]

/-- C1: for a template unit whose base name ends in "_test.go.tmpl", running
`Generate` with `IncludeTest` unset writes no output file for the unit and
emits the observable skip notice, while running with `IncludeTest` set (and a
successful render) writes exactly one output file for the unit. -/
theorem generate_skips_test_units (fs : FileSys) (loader : TemplateLoader)
    (data : TemplateData) (outputDir u b : String)
    (hmk : fs.mkdirAllResult outputDir = Except.ok ())
    (hls : loader.listFilesResult = Except.ok [u])
    (htest : strEndsWith (goBase u) "_test.go.tmpl" = true) :
    (data.IncludeTest = false →
      (Generate fs loader data outputDir).written = [] ∧
        skipLogMsg u ∈ (Generate fs loader data outputDir).logs) ∧
    (data.IncludeTest = true →
      loader.generateFileResult u (outputPathFor outputDir u) data = Except.ok b →
      (Generate fs loader data outputDir).written
        = [(outputPathFor outputDir u, b)]) := by
  rw [Generate_eq_loop fs loader data outputDir [u] hmk hls]
  constructor
  · intro hinc
    have hskip : isSkipped data u = true := by simp [isSkipped, hinc, htest]
    simp [generateLoop, hskip]
  · intro hinc hgen
    have hskip : isSkipped data u = false := by simp [isSkipped, hinc]
    simp [generateLoop, hskip, hgen]

/-- Witness for C1 at concrete inputs: the unit "vips_test.go.tmpl" yields no
write with `IncludeTest` unset and exactly one write with it set. -/
theorem generate_skips_test_units_witness :
    (Generate okFS testUnitLoader tdPlain "out").written = [] ∧
      (Generate okFS testUnitLoader tdTest "out").written
        = [("out/vips_test.go", "T")] := by
  constructor
  · exact ((generate_skips_test_units okFS testUnitLoader tdPlain "out"
      "vips_test.go.tmpl" "T" rfl rfl (by decide)).1 rfl).1
  · exact (generate_skips_test_units okFS testUnitLoader tdTest "out"
      "vips_test.go.tmpl" "T" rfl rfl (by decide)).2 rfl rfl

/-- C2: on a fully successful run, `Generate` writes exactly one file per
non-skipped unit, in order, and each file's path is the output directory
joined with the unit's base name with the ".tmpl" suffix stripped. -/
theorem generate_output_path_per_unit (fs : FileSys) (loader : TemplateLoader)
    (data : TemplateData) (outputDir : String) (files : List String)
    (hmk : fs.mkdirAllResult outputDir = Except.ok ())
    (hls : loader.listFilesResult = Except.ok files)
    (hok : (Generate fs loader data outputDir).result = Except.ok ()) :
    (Generate fs loader data outputDir).written.map Prod.fst
      = (files.filter (fun tf => !isSkipped data tf)).map (outputPathFor outputDir) := by
  rw [Generate_eq_loop fs loader data outputDir files hmk hls] at hok ⊢
  rw [generateLoop_written_paths, generateLoop_ok_processed _ _ _ _ _ _ _ hok]
  simp

/-- Witness for C2 at concrete inputs. -/
theorem generate_output_path_per_unit_witness :
    (Generate okFS oneUnitLoader tdPlain "out").written.map Prod.fst
      = (["vips.go.tmpl"].filter (fun tf => !isSkipped tdPlain tf)).map
          (outputPathFor "out") :=
  generate_output_path_per_unit okFS oneUnitLoader tdPlain "out" ["vips.go.tmpl"]
    rfl rfl rfl

/-- Counterexample to C3 as stated: with two units where the second fails,
`Generate` returns an error yet the first unit's output file has already been
written — the output root is partially overwritten on a mid-batch failure. -/
theorem generate_midbatch_write_cex :
    (Generate okFS failSecondLoader tdPlain "out").written = [("out/a.go", "A")] ∧
      (Generate okFS failSecondLoader tdPlain "out").written ≠ [] ∧
      (Generate okFS failSecondLoader tdPlain "out").result
        = Except.error "failed to generate out/b.go: boom" :=
  ⟨rfl, by decide, rfl⟩

/-- C3 (amended): `Generate` writes unit-by-unit with no render-all-first
staging — in every run (success or failure) the files on disk are exactly
those of the successfully processed units before any failure, so writes made
before a mid-batch failure remain. -/
theorem generate_written_up_to_failure (fs : FileSys) (loader : TemplateLoader)
    (data : TemplateData) (outputDir : String) (files : List String)
    (hmk : fs.mkdirAllResult outputDir = Except.ok ())
    (hls : loader.listFilesResult = Except.ok files) :
    (Generate fs loader data outputDir).written.map Prod.fst
      = (processedUnits loader outputDir data files).map (outputPathFor outputDir) := by
  rw [Generate_eq_loop fs loader data outputDir files hmk hls]
  rw [generateLoop_written_paths]
  simp

/-- Witness for the amended C3 at concrete inputs. -/
theorem generate_written_up_to_failure_witness :
    (Generate okFS failSecondLoader tdPlain "out").written.map Prod.fst
      = (processedUnits failSecondLoader "out" tdPlain
          ["a.go.tmpl", "b.go.tmpl"]).map (outputPathFor "out") :=
  generate_written_up_to_failure okFS failSecondLoader tdPlain "out"
    ["a.go.tmpl", "b.go.tmpl"] rfl rfl

/-- Counterexample to C4 as stated: for the failing unit "sub/x.tmpl" the
returned error message is "failed to generate out/x: boom", which does not
contain the unit's name — the error names the unit's output file instead. -/
theorem generate_error_unit_name_cex :
    (Generate okFS subFailLoader tdPlain "out").result
        = Except.error "failed to generate out/x: boom" ∧
      strContains "failed to generate out/x: boom" "sub/x.tmpl" = false :=
  ⟨rfl, by decide⟩

/-- C4 (amended): when the first failing unit is reached, `Generate` aborts
the whole batch, returning an error that names the failing unit's output file
(its base name with ".tmpl" stripped, joined to the output directory) and the
underlying error; no unit after the failing one is generated. -/
theorem generate_aborts_on_failure (fs : FileSys) (loader : TemplateLoader)
    (data : TemplateData) (outputDir : String) (l₁ : List String) (u : String)
    (l₂ : List String) (e : String)
    (hmk : fs.mkdirAllResult outputDir = Except.ok ())
    (hls : loader.listFilesResult = Except.ok (l₁ ++ u :: l₂))
    (hall : ∀ f ∈ l₁, isSkipped data f = true ∨
      ∃ b, loader.generateFileResult f (outputPathFor outputDir f) data
        = Except.ok b)
    (hu : isSkipped data u = false)
    (he : loader.generateFileResult u (outputPathFor outputDir u) data
      = Except.error e) :
    (Generate fs loader data outputDir).result
        = Except.error ("failed to generate " ++ outputPathFor outputDir u ++ ": " ++ e) ∧
      (Generate fs loader data outputDir).written.map Prod.fst
        = (processedUnits loader outputDir data l₁).map (outputPathFor outputDir) := by
  rw [Generate_eq_loop fs loader data outputDir (l₁ ++ u :: l₂) hmk hls]
  have h := generateLoop_abort loader outputDir data u e l₂ hu he l₁ [] [] [] hall
  exact ⟨h.1, h.2.trans (by simp)⟩

/-- Witness for the amended C4 at concrete inputs. -/
theorem generate_aborts_on_failure_witness :
    (Generate okFS failSecondLoader tdPlain "out").result
      = Except.error ("failed to generate "
          ++ outputPathFor "out" "b.go.tmpl" ++ ": " ++ "boom") :=
  (generate_aborts_on_failure okFS failSecondLoader tdPlain "out" ["a.go.tmpl"]
    "b.go.tmpl" [] "boom" rfl rfl
    (by
      intro f hf
      right
      refine ⟨"A", ?_⟩
      have hf' : f = "a.go.tmpl" := by simpa using hf
      rw [hf']
      rfl)
    (by decide) rfl).1

/-- C5: `NewTemplateData` is a pure aggregation — it equals the record
constructor on its inputs, and two calls on structurally identical inputs
yield structurally equal snapshots. -/
theorem newTemplateData_stable (v₁ v₂ : String) (o₁ o₂ : List Operation)
    (e₁ e₂ : List EnumTypeInfo) (i₁ i₂ : List ImageTypeInfo) (t₁ t₂ : Bool)
    (hv : v₁ = v₂) (ho : o₁ = o₂) (he : e₁ = e₂) (hi : i₁ = i₂) (ht : t₁ = t₂) :
    NewTemplateData v₁ o₁ e₁ i₁ t₁ = NewTemplateData v₂ o₂ e₂ i₂ t₂ ∧
      NewTemplateData v₁ o₁ e₁ i₁ t₁ = ⟨v₁, o₁, e₁, i₁, t₁⟩ := by
  subst hv; subst ho; subst he; subst hi; subst ht
  exact ⟨rfl, rfl⟩

/-- Witness for C5 at concrete inputs. -/
theorem newTemplateData_stable_witness :
    NewTemplateData "8.18.0" [] [] [] true = NewTemplateData "8.18.0" [] [] [] true ∧
      NewTemplateData "8.18.0" [] [] [] true = ⟨"8.18.0", [], [], [], true⟩ :=
  newTemplateData_stable "8.18.0" "8.18.0" [] [] [] [] [] [] true true
    rfl rfl rfl rfl rfl

/-- C6: with the extract flag set, `main` performs no introspection call at
all, copies the template files, and exits 0 when the copy succeeds. -/
theorem extract_mode_skips_introspection (flags : Flags) (fs : FileSys)
    (er : Except String Unit) (osl : String → Except String TemplateLoader)
    (el : TemplateLoader) (intro : IntrospectionData)
    (hex : flags.extract = true) :
    (mainRun flags fs er osl el intro).events.filter
        (fun ev => isIntrospectionEvent ev) = [] ∧
      MainEvent.extractTemplates flags.extractDir
          ∈ (mainRun flags fs er osl el intro).events ∧
      (er = Except.ok () → (mainRun flags fs er osl el intro).exitCode = 0) := by
  cases er with
  | error e => simp [mainRun, hex, isIntrospectionEvent]
  | ok u =>
    cases u
    simp [mainRun, hex, isIntrospectionEvent]

/-- Witness for C6 at concrete inputs. -/
theorem extract_mode_skips_introspection_witness :
    (mainRun extractFlags okFS (Except.ok ())
        (fun _ => Except.error "unused") emptyLoader noIntro).exitCode = 0 :=
  (extract_mode_skips_introspection extractFlags okFS (Except.ok ())
    (fun _ => Except.error "unused") emptyLoader noIntro rfl).2.2 rfl

/-- C7: `Generate` never mutates the template-data snapshot — on every run,
successful or failed, each field of the snapshot (and the snapshot itself) is
unchanged when `Generate` returns. -/
theorem generate_preserves_template_data (fs : FileSys) (loader : TemplateLoader)
    (data : TemplateData) (outputDir : String) :
    (Generate fs loader data outputDir).finalData.VipsVersion = data.VipsVersion ∧
      (Generate fs loader data outputDir).finalData.Operations = data.Operations ∧
      (Generate fs loader data outputDir).finalData.EnumTypes = data.EnumTypes ∧
      (Generate fs loader data outputDir).finalData.ImageTypes = data.ImageTypes ∧
      (Generate fs loader data outputDir).finalData.IncludeTest = data.IncludeTest ∧
      (Generate fs loader data outputDir).finalData = data := by
  have h : (Generate fs loader data outputDir).finalData = data := by
    unfold Generate
    cases fs.mkdirAllResult outputDir with
    | error e => rfl
    | ok u =>
      cases loader.listFilesResult with
      | error e => rfl
      | ok files => exact generateLoop_finalData loader outputDir data files [] [] []
  exact ⟨by rw [h], by rw [h], by rw [h], by rw [h], by rw [h], h⟩

/-- Counterexample to C8 as stated: two successful runs that write different
path sets return the very same success value, so the value `Generate` returns
cannot be — and is not — the list of written paths (Go's `Generate` returns
only `error`). -/
theorem generate_result_no_paths_cex :
    (Generate okFS oneUnitLoader tdPlain "out").result
        = (Generate okFS twoOkLoader tdPlain "out").result ∧
      (Generate okFS oneUnitLoader tdPlain "out").written.map Prod.fst
        ≠ (Generate okFS twoOkLoader tdPlain "out").written.map Prod.fst :=
  ⟨rfl, by decide⟩

/-- C8 (amended): on success `Generate` returns `nil` — no path list — and
reports the written paths observably instead: the success log block names
each generated output path, one per non-skipped unit, in generation order. -/
theorem generate_success_logs_paths (fs : FileSys) (loader : TemplateLoader)
    (data : TemplateData) (outputDir : String) (files : List String)
    (hmk : fs.mkdirAllResult outputDir = Except.ok ())
    (hls : loader.listFilesResult = Except.ok files)
    (hok : (Generate fs loader data outputDir).result = Except.ok ()) :
    (Generate fs loader data outputDir).result = Except.ok () ∧
      (Generate fs loader data outputDir).logs
        = (files.filter (fun tf => isSkipped data tf)).map skipLogMsg
            ++ successLogs ((files.filter (fun tf => !isSkipped data tf)).map
                  (outputPathFor outputDir)) := by
  rw [Generate_eq_loop fs loader data outputDir files hmk hls] at hok ⊢
  refine ⟨hok, ?_⟩
  rw [generateLoop_ok_logs _ _ _ _ _ _ _ hok]
  simp

/-- Witness for the amended C8 at concrete inputs. -/
theorem generate_success_logs_paths_witness :
    (Generate okFS mixedLoader tdPlain "out").result = Except.ok () ∧
      (Generate okFS mixedLoader tdPlain "out").logs
        = ((["vips.go.tmpl", "vips_test.go.tmpl"].filter
              (fun tf => isSkipped tdPlain tf)).map skipLogMsg
            ++ successLogs ((["vips.go.tmpl", "vips_test.go.tmpl"].filter
                  (fun tf => !isSkipped tdPlain tf)).map (outputPathFor "out"))) :=
  generate_success_logs_paths okFS mixedLoader tdPlain "out"
    ["vips.go.tmpl", "vips_test.go.tmpl"] rfl rfl rfl

/-- C9: output-directory precedence at the CLI — a non-empty `-out` value
wins, otherwise the first positional argument when present, otherwise
"./vips"; and since the `-out` default "./vips" is non-empty, the positional
branch is reachable only when `-out` is explicitly set to the empty string. -/
theorem resolveOutputDir_precedence :
    (∀ f args, f ≠ "" → resolveOutputDir f args = f) ∧
      (∀ args, args ≠ [] → resolveOutputDir "" args = args.headD "") ∧
      resolveOutputDir "" [] = "./vips" ∧
      (defaultOutFlagVal = "./vips" ∧ defaultOutFlagVal ≠ "") ∧
      (∀ args, resolveOutputDir defaultOutFlagVal args = defaultOutFlagVal) := by
  have hA : ∀ f args, f ≠ "" → resolveOutputDir f args = f := by
    intro f args hf
    simp [resolveOutputDir, hf]
  refine ⟨hA, ?_, by decide, ⟨rfl, by decide⟩,
    fun args => hA _ args (by decide)⟩
  intro args ha
  cases args with
  | nil => exact absurd rfl ha
  | cons a t => simp [resolveOutputDir]

/-- Witness for C9 at concrete inputs. -/
theorem resolveOutputDir_precedence_witness :
    resolveOutputDir "custom" ["pos"] = "custom" ∧
      resolveOutputDir "" ["pos"] = "pos" := by
  constructor
  · exact resolveOutputDir_precedence.1 "custom" ["pos"] (by decide)
  · exact resolveOutputDir_precedence.2.1 ["pos"] (by decide)

/-- C10: two units in different subdirectories with the same base name map to
the same output path (the output set is flattened), and the later unit's
write lands last at that path, overwriting the earlier unit's output. -/
theorem generate_flattens_shared_base_names (fs : FileSys)
    (loader : TemplateLoader) (data : TemplateData)
    (outputDir d₁ d₂ name b₁ b₂ : String)
    (hn : name ≠ "") (hnc : ∀ c ∈ name.data, c ≠ '/')
    (hnt : strEndsWith name "_test.go.tmpl" = false)
    (hmk : fs.mkdirAllResult outputDir = Except.ok ())
    (hls : loader.listFilesResult
      = Except.ok [d₁ ++ "/" ++ name, d₂ ++ "/" ++ name])
    (h1 : loader.generateFileResult (d₁ ++ "/" ++ name)
        (outputPathFor outputDir (d₁ ++ "/" ++ name)) data = Except.ok b₁)
    (h2 : loader.generateFileResult (d₂ ++ "/" ++ name)
        (outputPathFor outputDir (d₂ ++ "/" ++ name)) data = Except.ok b₂) :
    outputPathFor outputDir (d₁ ++ "/" ++ name)
        = outputPathFor outputDir (d₂ ++ "/" ++ name) ∧
      diskContent (Generate fs loader data outputDir).written
          (outputPathFor outputDir (d₁ ++ "/" ++ name)) = some b₂ := by
  have hb₁ : goBase (d₁ ++ "/" ++ name) = name := goBase_dir_slash _ _ hn hnc
  have hb₂ : goBase (d₂ ++ "/" ++ name) = name := goBase_dir_slash _ _ hn hnc
  have hpath : outputPathFor outputDir (d₁ ++ "/" ++ name)
      = outputPathFor outputDir (d₂ ++ "/" ++ name) := by
    unfold outputPathFor
    rw [hb₁, hb₂]
  have hs₁ : isSkipped data (d₁ ++ "/" ++ name) = false := by
    simp [isSkipped, hb₁, hnt]
  have hs₂ : isSkipped data (d₂ ++ "/" ++ name) = false := by
    simp [isSkipped, hb₂, hnt]
  refine ⟨hpath, ?_⟩
  rw [Generate_eq_loop fs loader data outputDir _ hmk hls]
  simp only [generateLoop, hs₁, hs₂, Bool.false_eq_true, if_false, h1, h2]
  rw [hpath]
  simp [diskContent]

/-- Witness for C10 at concrete inputs. -/
theorem generate_flattens_shared_base_names_witness :
    outputPathFor "out" ("sub1" ++ "/" ++ "vips.go.tmpl")
        = outputPathFor "out" ("sub2" ++ "/" ++ "vips.go.tmpl") ∧
      diskContent (Generate okFS subdirLoader tdPlain "out").written
          (outputPathFor "out" ("sub1" ++ "/" ++ "vips.go.tmpl")) = some "B2" :=
  generate_flattens_shared_base_names okFS subdirLoader tdPlain "out"
    "sub1" "sub2" "vips.go.tmpl" "B1" "B2" (by decide) (by decide) (by decide)
    rfl rfl rfl rfl

end Vipsgen
